import Mathlib

/-!
Shallow embedding of the NSudo token-escalation-and-launch pipeline
(`NSudoCreateProcess` in NSudoAPI.cpp), the command-line entry point
(`NSudoMain` in NSudo.cpp) and the generic handle-ownership wrapper
(`M2::CObject` in M2WindowsHelpers.h).

The Mile.* OS-primitive layer is modelled by an oracle `Env`: `Env.ok i`
says whether the i-th status-checked Mile call of the pipeline succeeds and
`Env.code i` gives the (platform-mapped) status it returns on failure.
Handles are natural numbers drawn from a fresh counter; every acquisition,
close, thread-token change and process operation is recorded in an event
trace so ordering and leak properties can be stated.
-/

namespace NSudo

/-- One observable operation of the pipeline, mirroring a Mile API call. -/
inductive Event where
  | openHandle (h : Nat)
  | closeHandle (h : Nat)
  | setThreadToken (t : Option Nat)
  | adjustPrivileges (h : Nat)
  | getSessionOf (h : Nat)
  | setSessionOf (h : Nat)
  | setMandatoryLabel (h : Nat) (rid : Nat)
  | createEnvironmentBlock
  | destroyEnvironmentBlock
  | expandEnvironmentStrings
  | freeExpandedString
  | createProcessAsUser
  | setPriorityClass (prio : Nat)
  | resumeThread
  | waitForSingleObject
  deriving DecidableEq, Repr

/-- Oracle for the OS layer: success/failure and failure status of each
status-checked Mile call (numbered 0,1,... in program order), and the
native session identifiers of the three token origins. -/
structure Env where
  ok : Nat → Bool
  code : Nat → Int
  callerSession : Nat
  lsassSession : Nat
  tiSession : Nat

/-- Pipeline state: the local HANDLE variables of `NSudoCreateProcess`
(`none` models INVALID_HANDLE_VALUE), the attempted-call counter, the fresh
handle allocator, the list of handles handed out by successful open/duplicate
calls, the session attribute of each handle, the calling thread's
impersonation token, the event trace, and the allocation bookkeeping of the
environment block and the expanded command line. -/
structure PState where
  calls : Nat
  fresh : Nat
  opened : List Nat
  events : List Event
  threadToken : Option Nat
  session : Nat → Nat
  CurrentProcessToken : Option Nat
  DuplicatedCurrentProcessToken : Option Nat
  OriginalLsassProcessToken : Option Nat
  SystemToken : Option Nat
  hToken : Option Nat
  OriginalToken : Option Nat
  SessionID : Nat
  envAttempted : Bool
  envAllocated : Bool
  envFreed : Bool
  expAttempted : Bool
  expAllocated : Bool
  expFreed : Bool
  processCreated : Bool

/-- The state at function entry: all six HANDLE locals INVALID, SessionID
initialised to (DWORD)-1, no calls made, nothing allocated. -/
def initState : PState :=
  { calls := 0
    fresh := 0
    opened := []
    events := []
    threadToken := none
    session := fun _ => 0
    CurrentProcessToken := none
    DuplicatedCurrentProcessToken := none
    OriginalLsassProcessToken := none
    SystemToken := none
    hToken := none
    OriginalToken := none
    SessionID := 4294967295
    envAttempted := false
    envAllocated := false
    envFreed := false
    expAttempted := false
    expAllocated := false
    expFreed := false
    processCreated := false }

/-- A successful open/duplicate: hand out the next fresh handle carrying the
given session identifier. -/
def newToken (sid : Nat) (s : PState) : Nat × PState :=
  (s.fresh,
    { s with
      fresh := s.fresh + 1
      opened := s.opened ++ [s.fresh]
      events := s.events ++ [Event.openHandle s.fresh]
      session := fun x => if x = s.fresh then sid else s.session x })

/-- Record an event. -/
def emit (e : Event) (s : PState) : PState :=
  { s with events := s.events ++ [e] }

/-- One status-checked Mile call was attempted. -/
def tick (s : PState) : PState :=
  { s with calls := s.calls + 1 }

/-- The handles the scope-exit handler closes, in the order its body tests
the six HANDLE variables (a variable holding INVALID_HANDLE_VALUE is
skipped). -/
def guardCloses (s : PState) : List Nat :=
  s.CurrentProcessToken.toList ++
  s.DuplicatedCurrentProcessToken.toList ++
  s.OriginalLsassProcessToken.toList ++
  s.SystemToken.toList ++
  s.hToken.toList ++
  s.OriginalToken.toList

/-- The `Mile::ScopeExitEventHandler` body: close each still-valid HANDLE
variable in declaration order, then `MileSetCurrentThreadToken(nullptr)`.
It runs on every exit path (the handler is never cancelled). -/
def cleanup (s : PState) : PState :=
  { s with
    events := s.events ++ (guardCloses s).map Event.closeHandle
                ++ [Event.setThreadToken none]
    threadToken := none }

set_option maxHeartbeats 2000000 in
/-- The straight-line body of `NSudoCreateProcess` before the scope guard
fires: the sixteen early-return guarded calls, then the nested
environment/expansion/process-creation block, which falls through to
`return S_OK` whatever its own calls returned. -/
def body (env : Env) (CommandLine : String) (CurrentDirectory : Option String) :
    Int × PState :=
  let s := initState
  -- hr = MileOpenCurrentProcessToken(MAXIMUM_ALLOWED, &CurrentProcessToken)
  let s := tick s
  if env.ok 0 = false then (env.code 0, s) else
  let p0 := newToken env.callerSession s
  let h0 := p0.1
  let s := { p0.2 with CurrentProcessToken := some h0 }
  -- hr = MileDuplicateToken(CurrentProcessToken, ..., TokenImpersonation,
  --                         &DuplicatedCurrentProcessToken)
  let s := tick s
  if env.ok 1 = false then (env.code 1, s) else
  let p1 := newToken (s.session h0) s
  let h1 := p1.1
  let s := { p1.2 with DuplicatedCurrentProcessToken := some h1 }
  -- hr = MileGetPrivilegeValue(SE_DEBUG_NAME, &RawPrivilege.Luid)
  let s := tick s
  if env.ok 2 = false then (env.code 2, s) else
  -- hr = MileAdjustTokenPrivilegesSimple(DuplicatedCurrentProcessToken, ...)
  let s := tick s
  if env.ok 3 = false then (env.code 3, s) else
  let s := emit (Event.adjustPrivileges h1) s
  -- hr = MileSetCurrentThreadToken(DuplicatedCurrentProcessToken)
  let s := tick s
  if env.ok 4 = false then (env.code 4, s) else
  let s := { (emit (Event.setThreadToken (some h1)) s) with threadToken := some h1 }
  -- hr = MileOpenCurrentThreadToken(MAXIMUM_ALLOWED, FALSE,
  --                                 &CurrentProcessToken)
  -- (overwrites the CurrentProcessToken variable with the thread token)
  let s := tick s
  if env.ok 5 = false then (env.code 5, s) else
  let p2 := newToken (s.session h1) s
  let h2 := p2.1
  let s := { p2.2 with CurrentProcessToken := some h2 }
  -- hr = MileGetTokenInformation(CurrentProcessToken, TokenSessionId,
  --                              &SessionID, sizeof(DWORD), &ReturnLength)
  let s := tick s
  if env.ok 6 = false then (env.code 6, s) else
  let s := { (emit (Event.getSessionOf h2) s) with SessionID := s.session h2 }
  -- hr = MileOpenLsassProcessToken(MAXIMUM_ALLOWED,
  --                                &OriginalLsassProcessToken)
  let s := tick s
  if env.ok 7 = false then (env.code 7, s) else
  let p3 := newToken env.lsassSession s
  let h3 := p3.1
  let s := { p3.2 with OriginalLsassProcessToken := some h3 }
  -- hr = MileDuplicateToken(OriginalLsassProcessToken, ...,
  --                         TokenImpersonation, &SystemToken)
  let s := tick s
  if env.ok 8 = false then (env.code 8, s) else
  let p4 := newToken (s.session h3) s
  let h4 := p4.1
  let s := { p4.2 with SystemToken := some h4 }
  -- hr = MileAdjustTokenAllPrivileges(SystemToken, SE_PRIVILEGE_ENABLED)
  let s := tick s
  if env.ok 9 = false then (env.code 9, s) else
  let s := emit (Event.adjustPrivileges h4) s
  -- hr = MileSetCurrentThreadToken(SystemToken)
  let s := tick s
  if env.ok 10 = false then (env.code 10, s) else
  let s := { (emit (Event.setThreadToken (some h4)) s) with threadToken := some h4 }
  -- hr = MileOpenServiceProcessToken(L"TrustedInstaller", MAXIMUM_ALLOWED,
  --                                  &OriginalToken)
  let s := tick s
  if env.ok 11 = false then (env.code 11, s) else
  let p5 := newToken env.tiSession s
  let h5 := p5.1
  let s := { p5.2 with OriginalToken := some h5 }
  -- hr = MileDuplicateToken(OriginalToken, ..., SecurityIdentification,
  --                         TokenPrimary, &hToken)
  let s := tick s
  if env.ok 12 = false then (env.code 12, s) else
  let p6 := newToken (s.session h5) s
  let h6 := p6.1
  let s := { p6.2 with hToken := some h6 }
  -- hr = MileSetTokenInformation(hToken, TokenSessionId, &SessionID, ...)
  let s := tick s
  if env.ok 13 = false then (env.code 13, s) else
  let s := { (emit (Event.setSessionOf h6) s) with
             session := fun x => if x = h6 then s.SessionID else s.session x }
  -- hr = MileAdjustTokenAllPrivileges(hToken, SE_PRIVILEGE_ENABLED)
  let s := tick s
  if env.ok 14 = false then (env.code 14, s) else
  let s := emit (Event.adjustPrivileges h6) s
  -- hr = MileSetTokenMandatoryLabel(hToken, MandatoryLabelRid)
  -- (MandatoryLabelRid = SECURITY_MANDATORY_SYSTEM_RID = 0x4000)
  let s := tick s
  if env.ok 15 = false then (env.code 15, s) else
  let s := emit (Event.setMandatoryLabel h6 16384) s
  -- hr = MileCreateEnvironmentBlock(&lpEnvironment, hToken, TRUE)
  let s := tick s
  let s := { (emit Event.createEnvironmentBlock s) with envAttempted := true }
  if env.ok 16 then
    let s := { s with envAllocated := true }
    -- hr = MileExpandEnvironmentStringsWithMemory(CommandLine,
    --                                             &ExpandedString)
    let s := tick s
    let s := { (emit Event.expandEnvironmentStrings s) with expAttempted := true }
    if env.ok 17 then
      let s := { s with expAllocated := true }
      -- hr = MileCreateProcessAsUser(hToken, ..., CREATE_SUSPENDED | ...,
      --                              lpEnvironment, CurrentDirectory, ...)
      let s := tick s
      let s := emit Event.createProcessAsUser s
      let s :=
        if env.ok 18 then
          let hp := s.fresh
          let ht := s.fresh + 1
          let s := { s with
                     fresh := s.fresh + 2
                     opened := s.opened ++ [hp, ht]
                     processCreated := true }
          -- MileSetPriorityClass(ProcessInfo.hProcess, ProcessPriority)
          -- (ProcessPriority = ABOVE_NORMAL_PRIORITY_CLASS = 0x8000)
          let s := emit (Event.setPriorityClass 32768) s
          -- MileResumeThread(ProcessInfo.hThread, nullptr)
          let s := emit Event.resumeThread s
          -- MileWaitForSingleObject(ProcessInfo.hProcess, 0, FALSE, nullptr)
          let s := emit Event.waitForSingleObject s
          -- MileCloseHandle(ProcessInfo.hProcess / hThread)
          let s := emit (Event.closeHandle hp) s
          emit (Event.closeHandle ht) s
        else s
      -- MileFreeMemory(ExpandedString)
      let s := { (emit Event.freeExpandedString s) with expFreed := true }
      -- MileDestroyEnvironmentBlock(lpEnvironment); return S_OK
      (0, { (emit Event.destroyEnvironmentBlock s) with envFreed := true })
    else
      -- MileDestroyEnvironmentBlock(lpEnvironment); return S_OK
      (0, { (emit Event.destroyEnvironmentBlock s) with envFreed := true })
  else
    -- return S_OK
    (0, s)

/-- `NSudoCreateProcess`: run the body; whichever way it returns, the scope
exit handler runs before the caller sees the result. The first component is
the returned HRESULT, the second the final observable state. -/
def NSudoCreateProcess (env : Env) (CommandLine : String)
    (CurrentDirectory : Option String) : Int × PState :=
  let r := body env CommandLine CurrentDirectory
  (r.1, cleanup r.2)

/-- An oracle on which every Mile call succeeds. -/
def envAll : Env :=
  { ok := fun _ => true
    code := fun _ => 14
    callerSession := 1
    lsassSession := 2
    tiSession := 3 }

/-- An oracle on which the k-th status-checked Mile call fails with status 14
and every earlier call succeeds. -/
def envFailAt (k : Nat) : Env :=
  { ok := fun i => decide (i < k)
    code := fun _ => 14
    callerSession := 1
    lsassSession := 2
    tiSession := 3 }

/-- Position of the first occurrence of an event in a trace (length of the
trace when absent). -/
def idxOf (e : Event) : List Event → Nat
  | [] => 0
  | x :: xs => if x = e then 0 else idxOf e xs + 1

/-- How many status-checked Mile calls a strictly sequential, short-circuiting
pipeline attempts under a given oracle: the failing call is the last one
attempted among calls 0..15; a failure of call 16 (environment block) skips
call 17 (expansion); a failure of call 17 skips call 18 (process creation);
call 18 is the last status-checked call either way. -/
def shortCircuitCalls (env : Env) : Nat :=
  if env.ok 0 = false then 1 else
  if env.ok 1 = false then 2 else
  if env.ok 2 = false then 3 else
  if env.ok 3 = false then 4 else
  if env.ok 4 = false then 5 else
  if env.ok 5 = false then 6 else
  if env.ok 6 = false then 7 else
  if env.ok 7 = false then 8 else
  if env.ok 8 = false then 9 else
  if env.ok 9 = false then 10 else
  if env.ok 10 = false then 11 else
  if env.ok 11 = false then 12 else
  if env.ok 12 = false then 13 else
  if env.ok 13 = false then 14 else
  if env.ok 14 = false then 15 else
  if env.ok 15 = false then 16 else
  if env.ok 16 = false then 17 else
  if env.ok 17 = false then 18 else 19

/-- `NSudoMain` from NSudo.cpp: `ApplicationName` and `UnresolvedCommandLine`
are the outputs of the external `M2SpiltCommandLineEx`, `AppPath` the cached
application path; the escalation pipeline's oracle is `env`. The result is
the process exit code paired with whether `NSudoCreateProcess` was invoked.
The status `NSudoCreateProcess` returns is bound and discarded, exactly as
the source discards the call's value. -/
def NSudoMain (ApplicationName UnresolvedCommandLine : String)
    (env : Env) (AppPath : String) : Int × Bool :=
  if UnresolvedCommandLine.isEmpty then (0, false)
  else if UnresolvedCommandLine.isEmpty then (-1, false)
  else
    let _hr := (NSudoCreateProcess env UnresolvedCommandLine (some AppPath)).1
    (0, true)

end NSudo

namespace M2

/-- `M2::CObject<TObject, TObjectDefiner>`: the owned value together with the
log of values handed to the definer's release function (the log records the
calls to `TObjectDefiner::Close`). -/
structure CObject (α : Type) where
  m_Object : α
  released : List α
  deriving DecidableEq, Repr

/-- `CObject::IsInvalid`: the stored value equals the definer's invalid
sentinel. -/
def CObject.IsInvalid [DecidableEq α] (invalid : α) (o : CObject α) : Bool :=
  decide (o.m_Object = invalid)

/-- `CObject::Close`: release the stored value only when it is not the
invalid sentinel, then store the sentinel. -/
def CObject.Close [DecidableEq α] (invalid : α) (o : CObject α) : CObject α :=
  if o.m_Object = invalid then o
  else { m_Object := invalid, released := o.released ++ [o.m_Object] }

/-- `CObject::operator=`: when the incoming value differs from the stored
one, close the stored value and take ownership of the incoming one;
otherwise do nothing. -/
def CObject.assign [DecidableEq α] (invalid : α) (o : CObject α) (x : α) :
    CObject α :=
  if x = o.m_Object then o
  else
    let c := CObject.Close invalid o
    { c with m_Object := x }

end M2

namespace NSudo

/-- C1 (code bug): on the oracle where the first sixteen status-checked Mile
calls succeed and environment-block creation (call 16, counting from 0)
fails with the non-zero status 14, `NSudoCreateProcess` still returns 0; the
same holds when command-line expansion (call 17) or process creation
(call 18) is the failing call, because the guarded block falls through to
`return S_OK`. An early-stage failure (here call 7, `MileOpenLsassProcessToken`)
is, by contrast, propagated verbatim. -/
theorem createProcess_returns_zero_despite_late_stage_failure :
    (envFailAt 16).ok 16 = false ∧
    (envFailAt 16).code 16 = 14 ∧
    (NSudoCreateProcess (envFailAt 16) "" none).1 = 0 ∧
    (NSudoCreateProcess (envFailAt 17) "" none).1 = 0 ∧
    (NSudoCreateProcess (envFailAt 18) "" none).1 = 0 ∧
    (NSudoCreateProcess (envFailAt 7) "" none).1 = 14 := by
  decide


/-- C2 (code bug): handle 0, returned by the very first call
(`MileOpenCurrentProcessToken`), is never closed: once
`MileOpenCurrentThreadToken` overwrites the `CurrentProcessToken` variable
(call 5) the original handle value is lost, so on the run failing at
`MileGetTokenInformation` (call 6) — and equally on the fully successful
run — no `closeHandle 0` event ever occurs. -/
theorem createProcess_never_closes_first_caller_token :
    (envFailAt 6).ok 6 = false ∧
    0 ∈ (NSudoCreateProcess (envFailAt 6) "" none).2.opened ∧
    (NSudoCreateProcess (envFailAt 6) "" none).2.events.count
      (Event.closeHandle 0) = 0 ∧
    0 ∈ (NSudoCreateProcess envAll "" none).2.opened ∧
    (NSudoCreateProcess envAll "" none).2.events.count
      (Event.closeHandle 0) = 0 := by
  decide


/-- C3 counterexample: on the fully successful run the guard closes the
still-held handles as [2, 1, 3, 4, 6, 5], whereas those handles were
acquired in the order [1, 2, 3, 4, 5, 6]; the close order is not the
reverse of the acquisition order (the most recently acquired handle, 6,
is not released first). -/
theorem guard_release_order_not_reverse_of_acquisition :
    guardCloses (body envAll "" none).2 = [2, 1, 3, 4, 6, 5] ∧
    (body envAll "" none).2.opened.filter
        (fun h => (guardCloses (body envAll "" none).2).contains h)
      = [1, 2, 3, 4, 5, 6] ∧
    guardCloses (body envAll "" none).2 ≠
      ((body envAll "" none).2.opened.filter
        (fun h => (guardCloses (body envAll "" none).2).contains h)).reverse := by
  decide


set_option maxHeartbeats 4000000 in
/-- C3 (amended): on every exit path the scope-exit handler runs exactly
once; it closes each still-held handle exactly once — the close list has no
duplicates and each of its handles gets exactly one `closeHandle` event in
the whole run — and it does so in the fixed declaration order of the six
HANDLE variables (CurrentProcessToken first, OriginalToken last), ending by
clearing the thread impersonation token; the order is not the reverse of
acquisition. -/
theorem guard_releases_each_handle_once_in_declaration_order
    (env : Env) (cl : String) (cd : Option String) :
    (guardCloses (body env cl cd).2).Nodup ∧
    (∀ h ∈ guardCloses (body env cl cd).2,
       (NSudoCreateProcess env cl cd).2.events.count (Event.closeHandle h) = 1) ∧
    (NSudoCreateProcess env cl cd).2.events.drop (body env cl cd).2.events.length
      = (guardCloses (body env cl cd).2).map Event.closeHandle
          ++ [Event.setThreadToken none] := by
  rcases h0 : env.ok 0 with _ | _
  · simp [NSudoCreateProcess, body, cleanup, guardCloses, newToken, emit, tick, initState, shortCircuitCalls, idxOf, *]; try decide
  rcases h1 : env.ok 1 with _ | _
  · simp [NSudoCreateProcess, body, cleanup, guardCloses, newToken, emit, tick, initState, shortCircuitCalls, idxOf, *]; try decide
  rcases h2 : env.ok 2 with _ | _
  · simp [NSudoCreateProcess, body, cleanup, guardCloses, newToken, emit, tick, initState, shortCircuitCalls, idxOf, *]; try decide
  rcases h3 : env.ok 3 with _ | _
  · simp [NSudoCreateProcess, body, cleanup, guardCloses, newToken, emit, tick, initState, shortCircuitCalls, idxOf, *]; try decide
  rcases h4 : env.ok 4 with _ | _
  · simp [NSudoCreateProcess, body, cleanup, guardCloses, newToken, emit, tick, initState, shortCircuitCalls, idxOf, *]; try decide
  rcases h5 : env.ok 5 with _ | _
  · simp [NSudoCreateProcess, body, cleanup, guardCloses, newToken, emit, tick, initState, shortCircuitCalls, idxOf, *]; try decide
  rcases h6 : env.ok 6 with _ | _
  · simp [NSudoCreateProcess, body, cleanup, guardCloses, newToken, emit, tick, initState, shortCircuitCalls, idxOf, *]; try decide
  rcases h7 : env.ok 7 with _ | _
  · simp [NSudoCreateProcess, body, cleanup, guardCloses, newToken, emit, tick, initState, shortCircuitCalls, idxOf, *]; try decide
  rcases h8 : env.ok 8 with _ | _
  · simp [NSudoCreateProcess, body, cleanup, guardCloses, newToken, emit, tick, initState, shortCircuitCalls, idxOf, *]; try decide
  rcases h9 : env.ok 9 with _ | _
  · simp [NSudoCreateProcess, body, cleanup, guardCloses, newToken, emit, tick, initState, shortCircuitCalls, idxOf, *]; try decide
  rcases h10 : env.ok 10 with _ | _
  · simp [NSudoCreateProcess, body, cleanup, guardCloses, newToken, emit, tick, initState, shortCircuitCalls, idxOf, *]; try decide
  rcases h11 : env.ok 11 with _ | _
  · simp [NSudoCreateProcess, body, cleanup, guardCloses, newToken, emit, tick, initState, shortCircuitCalls, idxOf, *]; try decide
  rcases h12 : env.ok 12 with _ | _
  · simp [NSudoCreateProcess, body, cleanup, guardCloses, newToken, emit, tick, initState, shortCircuitCalls, idxOf, *]; try decide
  rcases h13 : env.ok 13 with _ | _
  · simp [NSudoCreateProcess, body, cleanup, guardCloses, newToken, emit, tick, initState, shortCircuitCalls, idxOf, *]; try decide
  rcases h14 : env.ok 14 with _ | _
  · simp [NSudoCreateProcess, body, cleanup, guardCloses, newToken, emit, tick, initState, shortCircuitCalls, idxOf, *]; try decide
  rcases h15 : env.ok 15 with _ | _
  · simp [NSudoCreateProcess, body, cleanup, guardCloses, newToken, emit, tick, initState, shortCircuitCalls, idxOf, *]; try decide
  rcases h16 : env.ok 16 with _ | _
  · simp [NSudoCreateProcess, body, cleanup, guardCloses, newToken, emit, tick, initState, shortCircuitCalls, idxOf, *]; try decide
  rcases h17 : env.ok 17 with _ | _
  · simp [NSudoCreateProcess, body, cleanup, guardCloses, newToken, emit, tick, initState, shortCircuitCalls, idxOf, *]; try decide
  rcases h18 : env.ok 18 with _ | _
  · simp [NSudoCreateProcess, body, cleanup, guardCloses, newToken, emit, tick, initState, shortCircuitCalls, idxOf, *]; try decide
  simp [NSudoCreateProcess, body, cleanup, guardCloses, newToken, emit, tick, initState, shortCircuitCalls, idxOf, *]; try decide


set_option maxHeartbeats 4000000 in
/-- C4: whenever the pipeline reaches `MileSetTokenInformation` (the first
fourteen status-checked calls succeed), the session identifier written onto
the primary token (handle 6, duplicated from the TrustedInstaller token) is
exactly the original caller's session — the one captured from the
caller-derived thread token before the lsass-derived identity replaced it —
and hence differs from the native sessions of the lsass-derived and
TrustedInstaller-derived tokens whenever those differ from the caller's. -/
theorem primary_token_session_is_original_caller_session
    (env : Env) (cl : String) (cd : Option String)
    (hok : ∀ i, i < 14 → env.ok i = true)
    (hl : env.callerSession ≠ env.lsassSession)
    (ht : env.callerSession ≠ env.tiSession) :
    (NSudoCreateProcess env cl cd).2.hToken = some 6 ∧
    (NSudoCreateProcess env cl cd).2.session 6 = env.callerSession ∧
    (NSudoCreateProcess env cl cd).2.session 6 ≠ env.lsassSession ∧
    (NSudoCreateProcess env cl cd).2.session 6 ≠ env.tiSession := by
  have h0 := hok 0 (by norm_num)
  have h1 := hok 1 (by norm_num)
  have h2 := hok 2 (by norm_num)
  have h3 := hok 3 (by norm_num)
  have h4 := hok 4 (by norm_num)
  have h5 := hok 5 (by norm_num)
  have h6 := hok 6 (by norm_num)
  have h7 := hok 7 (by norm_num)
  have h8 := hok 8 (by norm_num)
  have h9 := hok 9 (by norm_num)
  have h10 := hok 10 (by norm_num)
  have h11 := hok 11 (by norm_num)
  have h12 := hok 12 (by norm_num)
  have h13 := hok 13 (by norm_num)
  rcases h14 : env.ok 14 with _ | _
  · simp [NSudoCreateProcess, body, cleanup, guardCloses, newToken, emit, tick, initState, shortCircuitCalls, idxOf, *]
  rcases h15 : env.ok 15 with _ | _
  · simp [NSudoCreateProcess, body, cleanup, guardCloses, newToken, emit, tick, initState, shortCircuitCalls, idxOf, *]
  rcases h16 : env.ok 16 with _ | _
  · simp [NSudoCreateProcess, body, cleanup, guardCloses, newToken, emit, tick, initState, shortCircuitCalls, idxOf, *]
  rcases h17 : env.ok 17 with _ | _
  · simp [NSudoCreateProcess, body, cleanup, guardCloses, newToken, emit, tick, initState, shortCircuitCalls, idxOf, *]
  rcases h18 : env.ok 18 with _ | _
  · simp [NSudoCreateProcess, body, cleanup, guardCloses, newToken, emit, tick, initState, shortCircuitCalls, idxOf, *]
  simp [NSudoCreateProcess, body, cleanup, guardCloses, newToken, emit, tick, initState, shortCircuitCalls, idxOf, *]

/-- Witness for C4: on the all-success oracle with caller session 1, lsass
session 2 and TrustedInstaller session 3, the primary token carries
session 1. -/
theorem primary_token_session_is_original_caller_session_witness :
    (NSudoCreateProcess envAll "" none).2.hToken = some 6 ∧
    (NSudoCreateProcess envAll "" none).2.session 6 = envAll.callerSession ∧
    (NSudoCreateProcess envAll "" none).2.session 6 ≠ envAll.lsassSession ∧
    (NSudoCreateProcess envAll "" none).2.session 6 ≠ envAll.tiSession :=
  primary_token_session_is_original_caller_session envAll "" none
    (by decide) (by decide) (by decide)


/-- C5: on every return path of `NSudoCreateProcess` — any oracle, hence
success or failure at any stage — the scope-exit handler has cleared the
calling thread's impersonation token back to none, and clearing it is the
very last observable action of the run. -/
theorem thread_impersonation_cleared_on_every_exit_path
    (env : Env) (cl : String) (cd : Option String) :
    (NSudoCreateProcess env cl cd).2.threadToken = none ∧
    ∃ l, (NSudoCreateProcess env cl cd).2.events
           = l ++ [Event.setThreadToken none] :=
  ⟨rfl, ⟨_, rfl⟩⟩


set_option maxHeartbeats 4000000 in
/-- C6: in any run in which the new process's primary thread is resumed,
the process's priority class has been set to ABOVE_NORMAL_PRIORITY_CLASS
(0x8000) at a strictly earlier position of the trace; a resume before the
priority assignment never occurs. -/
theorem priority_class_set_before_resume
    (env : Env) (cl : String) (cd : Option String)
    (hres : Event.resumeThread ∈ (NSudoCreateProcess env cl cd).2.events) :
    Event.setPriorityClass 32768 ∈ (NSudoCreateProcess env cl cd).2.events ∧
    idxOf (Event.setPriorityClass 32768) (NSudoCreateProcess env cl cd).2.events <
      idxOf Event.resumeThread (NSudoCreateProcess env cl cd).2.events := by
  rcases h0 : env.ok 0 with _ | _
  · simp [NSudoCreateProcess, body, cleanup, guardCloses, newToken, emit, tick, initState, shortCircuitCalls, idxOf, *] at hres ⊢
  rcases h1 : env.ok 1 with _ | _
  · simp [NSudoCreateProcess, body, cleanup, guardCloses, newToken, emit, tick, initState, shortCircuitCalls, idxOf, *] at hres ⊢
  rcases h2 : env.ok 2 with _ | _
  · simp [NSudoCreateProcess, body, cleanup, guardCloses, newToken, emit, tick, initState, shortCircuitCalls, idxOf, *] at hres ⊢
  rcases h3 : env.ok 3 with _ | _
  · simp [NSudoCreateProcess, body, cleanup, guardCloses, newToken, emit, tick, initState, shortCircuitCalls, idxOf, *] at hres ⊢
  rcases h4 : env.ok 4 with _ | _
  · simp [NSudoCreateProcess, body, cleanup, guardCloses, newToken, emit, tick, initState, shortCircuitCalls, idxOf, *] at hres ⊢
  rcases h5 : env.ok 5 with _ | _
  · simp [NSudoCreateProcess, body, cleanup, guardCloses, newToken, emit, tick, initState, shortCircuitCalls, idxOf, *] at hres ⊢
  rcases h6 : env.ok 6 with _ | _
  · simp [NSudoCreateProcess, body, cleanup, guardCloses, newToken, emit, tick, initState, shortCircuitCalls, idxOf, *] at hres ⊢
  rcases h7 : env.ok 7 with _ | _
  · simp [NSudoCreateProcess, body, cleanup, guardCloses, newToken, emit, tick, initState, shortCircuitCalls, idxOf, *] at hres ⊢
  rcases h8 : env.ok 8 with _ | _
  · simp [NSudoCreateProcess, body, cleanup, guardCloses, newToken, emit, tick, initState, shortCircuitCalls, idxOf, *] at hres ⊢
  rcases h9 : env.ok 9 with _ | _
  · simp [NSudoCreateProcess, body, cleanup, guardCloses, newToken, emit, tick, initState, shortCircuitCalls, idxOf, *] at hres ⊢
  rcases h10 : env.ok 10 with _ | _
  · simp [NSudoCreateProcess, body, cleanup, guardCloses, newToken, emit, tick, initState, shortCircuitCalls, idxOf, *] at hres ⊢
  rcases h11 : env.ok 11 with _ | _
  · simp [NSudoCreateProcess, body, cleanup, guardCloses, newToken, emit, tick, initState, shortCircuitCalls, idxOf, *] at hres ⊢
  rcases h12 : env.ok 12 with _ | _
  · simp [NSudoCreateProcess, body, cleanup, guardCloses, newToken, emit, tick, initState, shortCircuitCalls, idxOf, *] at hres ⊢
  rcases h13 : env.ok 13 with _ | _
  · simp [NSudoCreateProcess, body, cleanup, guardCloses, newToken, emit, tick, initState, shortCircuitCalls, idxOf, *] at hres ⊢
  rcases h14 : env.ok 14 with _ | _
  · simp [NSudoCreateProcess, body, cleanup, guardCloses, newToken, emit, tick, initState, shortCircuitCalls, idxOf, *] at hres ⊢
  rcases h15 : env.ok 15 with _ | _
  · simp [NSudoCreateProcess, body, cleanup, guardCloses, newToken, emit, tick, initState, shortCircuitCalls, idxOf, *] at hres ⊢
  rcases h16 : env.ok 16 with _ | _
  · simp [NSudoCreateProcess, body, cleanup, guardCloses, newToken, emit, tick, initState, shortCircuitCalls, idxOf, *] at hres ⊢
  rcases h17 : env.ok 17 with _ | _
  · simp [NSudoCreateProcess, body, cleanup, guardCloses, newToken, emit, tick, initState, shortCircuitCalls, idxOf, *] at hres ⊢
  rcases h18 : env.ok 18 with _ | _
  · simp [NSudoCreateProcess, body, cleanup, guardCloses, newToken, emit, tick, initState, shortCircuitCalls, idxOf, *] at hres ⊢
  simp [NSudoCreateProcess, body, cleanup, guardCloses, newToken, emit, tick, initState, shortCircuitCalls, idxOf, *] at hres ⊢

/-- Witness for C6: on the all-success oracle the resume event occurs and
the priority-class assignment strictly precedes it. -/
theorem priority_class_set_before_resume_witness :
    Event.setPriorityClass 32768 ∈ (NSudoCreateProcess envAll "" none).2.events ∧
    idxOf (Event.setPriorityClass 32768) (NSudoCreateProcess envAll "" none).2.events <
      idxOf Event.resumeThread (NSudoCreateProcess envAll "" none).2.events :=
  priority_class_set_before_resume envAll "" none (by decide)


set_option maxHeartbeats 4000000 in
/-- C7: for every oracle, the environment block is destroyed exactly when it
was created and the expanded command-line buffer is freed exactly when it
was allocated; if environment-block creation is attempted and fails,
expansion is never attempted; and if expansion is attempted and fails, the
environment block has been destroyed before the function returns. -/
theorem environment_block_and_expanded_string_freed_iff_allocated
    (env : Env) (cl : String) (cd : Option String) :
    ((NSudoCreateProcess env cl cd).2.envFreed
       = (NSudoCreateProcess env cl cd).2.envAllocated) ∧
    ((NSudoCreateProcess env cl cd).2.expFreed
       = (NSudoCreateProcess env cl cd).2.expAllocated) ∧
    ((NSudoCreateProcess env cl cd).2.envAttempted = true → env.ok 16 = false →
       (NSudoCreateProcess env cl cd).2.expAttempted = false) ∧
    ((NSudoCreateProcess env cl cd).2.expAttempted = true → env.ok 17 = false →
       (NSudoCreateProcess env cl cd).2.envFreed = true) := by
  rcases h0 : env.ok 0 with _ | _
  · simp [NSudoCreateProcess, body, cleanup, guardCloses, newToken, emit, tick, initState, shortCircuitCalls, idxOf, *]
  rcases h1 : env.ok 1 with _ | _
  · simp [NSudoCreateProcess, body, cleanup, guardCloses, newToken, emit, tick, initState, shortCircuitCalls, idxOf, *]
  rcases h2 : env.ok 2 with _ | _
  · simp [NSudoCreateProcess, body, cleanup, guardCloses, newToken, emit, tick, initState, shortCircuitCalls, idxOf, *]
  rcases h3 : env.ok 3 with _ | _
  · simp [NSudoCreateProcess, body, cleanup, guardCloses, newToken, emit, tick, initState, shortCircuitCalls, idxOf, *]
  rcases h4 : env.ok 4 with _ | _
  · simp [NSudoCreateProcess, body, cleanup, guardCloses, newToken, emit, tick, initState, shortCircuitCalls, idxOf, *]
  rcases h5 : env.ok 5 with _ | _
  · simp [NSudoCreateProcess, body, cleanup, guardCloses, newToken, emit, tick, initState, shortCircuitCalls, idxOf, *]
  rcases h6 : env.ok 6 with _ | _
  · simp [NSudoCreateProcess, body, cleanup, guardCloses, newToken, emit, tick, initState, shortCircuitCalls, idxOf, *]
  rcases h7 : env.ok 7 with _ | _
  · simp [NSudoCreateProcess, body, cleanup, guardCloses, newToken, emit, tick, initState, shortCircuitCalls, idxOf, *]
  rcases h8 : env.ok 8 with _ | _
  · simp [NSudoCreateProcess, body, cleanup, guardCloses, newToken, emit, tick, initState, shortCircuitCalls, idxOf, *]
  rcases h9 : env.ok 9 with _ | _
  · simp [NSudoCreateProcess, body, cleanup, guardCloses, newToken, emit, tick, initState, shortCircuitCalls, idxOf, *]
  rcases h10 : env.ok 10 with _ | _
  · simp [NSudoCreateProcess, body, cleanup, guardCloses, newToken, emit, tick, initState, shortCircuitCalls, idxOf, *]
  rcases h11 : env.ok 11 with _ | _
  · simp [NSudoCreateProcess, body, cleanup, guardCloses, newToken, emit, tick, initState, shortCircuitCalls, idxOf, *]
  rcases h12 : env.ok 12 with _ | _
  · simp [NSudoCreateProcess, body, cleanup, guardCloses, newToken, emit, tick, initState, shortCircuitCalls, idxOf, *]
  rcases h13 : env.ok 13 with _ | _
  · simp [NSudoCreateProcess, body, cleanup, guardCloses, newToken, emit, tick, initState, shortCircuitCalls, idxOf, *]
  rcases h14 : env.ok 14 with _ | _
  · simp [NSudoCreateProcess, body, cleanup, guardCloses, newToken, emit, tick, initState, shortCircuitCalls, idxOf, *]
  rcases h15 : env.ok 15 with _ | _
  · simp [NSudoCreateProcess, body, cleanup, guardCloses, newToken, emit, tick, initState, shortCircuitCalls, idxOf, *]
  rcases h16 : env.ok 16 with _ | _
  · simp [NSudoCreateProcess, body, cleanup, guardCloses, newToken, emit, tick, initState, shortCircuitCalls, idxOf, *]
  rcases h17 : env.ok 17 with _ | _
  · simp [NSudoCreateProcess, body, cleanup, guardCloses, newToken, emit, tick, initState, shortCircuitCalls, idxOf, *]
  rcases h18 : env.ok 18 with _ | _
  · simp [NSudoCreateProcess, body, cleanup, guardCloses, newToken, emit, tick, initState, shortCircuitCalls, idxOf, *]
  simp [NSudoCreateProcess, body, cleanup, guardCloses, newToken, emit, tick, initState, shortCircuitCalls, idxOf, *]


set_option maxHeartbeats 4000000 in
/-- C8: stage execution is strictly sequential and short-circuiting: the
number of status-checked Mile calls attempted equals the short-circuit
count determined by the first failing call (so no operation of a later
stage is invoked once a stage fails), and the priority-class assignment and
the thread resume occur only in runs where process creation (call 18)
succeeded. -/
theorem stage_execution_short_circuits
    (env : Env) (cl : String) (cd : Option String) :
    ((NSudoCreateProcess env cl cd).2.calls = shortCircuitCalls env) ∧
    (∀ p, Event.setPriorityClass p ∈ (NSudoCreateProcess env cl cd).2.events →
       env.ok 18 = true) ∧
    (Event.resumeThread ∈ (NSudoCreateProcess env cl cd).2.events →
       env.ok 18 = true) ∧
    (env.ok 18 = false →
       (∀ p, Event.setPriorityClass p ∉ (NSudoCreateProcess env cl cd).2.events) ∧
       Event.resumeThread ∉ (NSudoCreateProcess env cl cd).2.events) := by
  rcases h0 : env.ok 0 with _ | _
  · simp [NSudoCreateProcess, body, cleanup, guardCloses, newToken, emit, tick, initState, shortCircuitCalls, idxOf, *]
  rcases h1 : env.ok 1 with _ | _
  · simp [NSudoCreateProcess, body, cleanup, guardCloses, newToken, emit, tick, initState, shortCircuitCalls, idxOf, *]
  rcases h2 : env.ok 2 with _ | _
  · simp [NSudoCreateProcess, body, cleanup, guardCloses, newToken, emit, tick, initState, shortCircuitCalls, idxOf, *]
  rcases h3 : env.ok 3 with _ | _
  · simp [NSudoCreateProcess, body, cleanup, guardCloses, newToken, emit, tick, initState, shortCircuitCalls, idxOf, *]
  rcases h4 : env.ok 4 with _ | _
  · simp [NSudoCreateProcess, body, cleanup, guardCloses, newToken, emit, tick, initState, shortCircuitCalls, idxOf, *]
  rcases h5 : env.ok 5 with _ | _
  · simp [NSudoCreateProcess, body, cleanup, guardCloses, newToken, emit, tick, initState, shortCircuitCalls, idxOf, *]
  rcases h6 : env.ok 6 with _ | _
  · simp [NSudoCreateProcess, body, cleanup, guardCloses, newToken, emit, tick, initState, shortCircuitCalls, idxOf, *]
  rcases h7 : env.ok 7 with _ | _
  · simp [NSudoCreateProcess, body, cleanup, guardCloses, newToken, emit, tick, initState, shortCircuitCalls, idxOf, *]
  rcases h8 : env.ok 8 with _ | _
  · simp [NSudoCreateProcess, body, cleanup, guardCloses, newToken, emit, tick, initState, shortCircuitCalls, idxOf, *]
  rcases h9 : env.ok 9 with _ | _
  · simp [NSudoCreateProcess, body, cleanup, guardCloses, newToken, emit, tick, initState, shortCircuitCalls, idxOf, *]
  rcases h10 : env.ok 10 with _ | _
  · simp [NSudoCreateProcess, body, cleanup, guardCloses, newToken, emit, tick, initState, shortCircuitCalls, idxOf, *]
  rcases h11 : env.ok 11 with _ | _
  · simp [NSudoCreateProcess, body, cleanup, guardCloses, newToken, emit, tick, initState, shortCircuitCalls, idxOf, *]
  rcases h12 : env.ok 12 with _ | _
  · simp [NSudoCreateProcess, body, cleanup, guardCloses, newToken, emit, tick, initState, shortCircuitCalls, idxOf, *]
  rcases h13 : env.ok 13 with _ | _
  · simp [NSudoCreateProcess, body, cleanup, guardCloses, newToken, emit, tick, initState, shortCircuitCalls, idxOf, *]
  rcases h14 : env.ok 14 with _ | _
  · simp [NSudoCreateProcess, body, cleanup, guardCloses, newToken, emit, tick, initState, shortCircuitCalls, idxOf, *]
  rcases h15 : env.ok 15 with _ | _
  · simp [NSudoCreateProcess, body, cleanup, guardCloses, newToken, emit, tick, initState, shortCircuitCalls, idxOf, *]
  rcases h16 : env.ok 16 with _ | _
  · simp [NSudoCreateProcess, body, cleanup, guardCloses, newToken, emit, tick, initState, shortCircuitCalls, idxOf, *]
  rcases h17 : env.ok 17 with _ | _
  · simp [NSudoCreateProcess, body, cleanup, guardCloses, newToken, emit, tick, initState, shortCircuitCalls, idxOf, *]
  rcases h18 : env.ok 18 with _ | _
  · simp [NSudoCreateProcess, body, cleanup, guardCloses, newToken, emit, tick, initState, shortCircuitCalls, idxOf, *]
  simp [NSudoCreateProcess, body, cleanup, guardCloses, newToken, emit, tick, initState, shortCircuitCalls, idxOf, *]


/-- C9: `NSudoMain` always exits with code 0: an empty unresolved command
line returns 0 without invoking the escalation pipeline, a non-empty one
invokes it, discards its status and returns 0; the `-1` branch is
unreachable, so the exit code is never -1. -/
theorem main_always_returns_zero
    (an ucl : String) (env : Env) (ap : String) :
    (NSudoMain an ucl env ap).1 = 0 ∧
    (NSudoMain an ucl env ap).1 ≠ -1 ∧
    ((NSudoMain an ucl env ap).2 = true ↔ ucl.isEmpty = false) := by
  unfold NSudoMain
  split <;> simp_all

end NSudo

namespace M2

/-- C10: `CObject`'s release discipline: after `Close` the stored value is
the invalid sentinel; a second `Close` releases nothing further; assigning
the currently stored value back to the wrapper is a no-op (no release); and
a single `Close` releases at most one value. -/
theorem cObject_release_at_most_once
    (α : Type) [DecidableEq α] (invalid : α) (o : CObject α) :
    (CObject.Close invalid o).m_Object = invalid ∧
    (CObject.Close invalid (CObject.Close invalid o)).released
      = (CObject.Close invalid o).released ∧
    CObject.assign invalid o o.m_Object = o ∧
    (CObject.Close invalid o).released.length ≤ o.released.length + 1 := by
  by_cases h : o.m_Object = invalid <;>
    simp [CObject.Close, CObject.assign, h]

end M2
